import Mathlib

/-!
# Verification of the MEAN-blog back-end authorization and token core

Shallow embedding of the repository's policy engine (`src/abilities/abilities.ts`),
JWT token service (`src/utils/jwt.ts`), admin role-update endpoint
(`src/modules/users/user.controller.ts` and its route wiring), and notification
dispatch (`src/modules/notifications/notification.service.ts`), together with
theorems settling the spec's claims about them.

Conventions:
* Machine integers are `Nat` (all quantities involved — Unix seconds, expiry
  offsets — are non-negative and far from overflow in the source).
* JavaScript exceptions become `Except` values; the distinct error classes and
  messages thrown by the source are preserved so that claims about *which*
  error occurs are faithful.
* The two external libraries the core delegates to — CASL (rule evaluation)
  and `jsonwebtoken` (sign/verify) — are embedded from their documented
  semantics, which the source relies on:
  - CASL: rules are scanned from the *last* defined to the first, and the
    first relevant rule determines the outcome (`cannot` rules only override
    earlier rules); when a permission is checked against a subject *type*
    (a string), rule conditions are ignored; against an instance, a rule's
    condition must match the instance's fields (MongoDB-style equality).
  - `jsonwebtoken.verify`: decodes (malformed check), verifies the signature,
    then checks `exp`, then `audience`, then `issuer` — in that order.
    A signature is modelled as the secret the token was signed with:
    it verifies iff the verifier supplies the same secret.
-/

deriving instance DecidableEq for Except

namespace MeanBlog

/-! ## Policy engine: `src/abilities/abilities.ts` -/

/-- `UserRole` enum from `src/modules/shared/enums/role.enum.ts`
(`guest`, `writer`, `editor`, `admin`). -/
inductive UserRole where
  | guest
  | writer
  | editor
  | admin
deriving DecidableEq, Repr

/-- Privilege rank of a role: the ordering Guest < Writer < Editor < Admin
(the same numbering as `roleHierarchy` in `src/modules/users/user.model.ts`). -/
def roleRank : UserRole → Nat
  | .guest => 0
  | .writer => 1
  | .editor => 2
  | .admin => 3

/-- The slice of `IUser` that `defineAbilitiesFor` reads: `_id` (already in
string form — the source applies `String(user._id)`) and `role`. -/
structure AbilityUser where
  _id : String
  role : UserRole
deriving DecidableEq, Repr

/-- `Actions` type from `abilities.ts`:
`'manage' | 'create' | 'read' | 'update' | 'delete'`. -/
inductive Action where
  | manage
  | create
  | read
  | update
  | delete
deriving DecidableEq, Repr

/-- One CASL rule as produced by the `AbilityBuilder` calls in
`defineAbilitiesFor`: `can`/`cannot` (`inverted`), an action, a subject-type
string, and the optional `{ userId: ... }` ownership condition. -/
structure Rule where
  inverted : Bool
  action : Action
  subject : String
  conditionUserId : Option String
deriving DecidableEq, Repr

/-- `defineAbilitiesFor` (`abilities.ts` lines 113–147), in source order:
guest baseline, then the `user.role === WRITER / EDITOR / ADMIN` branches. -/
def defineAbilitiesFor (user : AbilityUser) : List Rule :=
  [ ⟨false, .read, "Article", none⟩,
    ⟨false, .read, "Comment", none⟩,
    ⟨false, .create, "Comment", none⟩,
    ⟨false, .create, "Reply", none⟩,
    ⟨false, .update, "Comment", some user._id⟩,
    ⟨false, .delete, "Comment", some user._id⟩ ]
  ++ (if user.role = .writer then
    [ ⟨false, .create, "Article", none⟩,
      ⟨false, .update, "Article", some user._id⟩,
      ⟨false, .delete, "Article", some user._id⟩ ]
    else [])
  ++ (if user.role = .editor then
    [ ⟨false, .manage, "Article", none⟩,
      ⟨false, .manage, "Comment", none⟩,
      ⟨true, .delete, "User", none⟩ ]
    else [])
  ++ (if user.role = .admin then
    [ ⟨false, .manage, "all", none⟩,
      ⟨false, .read, "Statistics", none⟩ ]
    else [])

/-- CASL action matching: a rule whose action is `manage` matches every
queried action; otherwise the actions must be equal. -/
def actionMatches (ruleAction queried : Action) : Bool :=
  ruleAction == .manage || ruleAction == queried

/-- CASL subject matching: a rule on subject `all` matches every subject
type; otherwise the type tags must be equal. -/
def subjectMatches (ruleSubject tag : String) : Bool :=
  ruleSubject == "all" || ruleSubject == tag

/-- A document as seen by the rule evaluator after `normalizeDocument`:
string ids and a `baseModelName` type tag. `userId` is the owning
principal's id (the spec's `ownerId`). -/
structure NormDoc where
  _id : Option String
  userId : Option String
  baseModelName : String
deriving DecidableEq, Repr

/-- CASL MongoDB-condition matching of a rule's `{ userId: uid }` condition
against an instance: an unconditioned rule always matches; a conditioned
rule requires the instance's `userId` field to equal `uid` (an instance
missing the field does not match). -/
def conditionMatches (cond : Option String) (doc : NormDoc) : Bool :=
  match cond with
  | none => true
  | some uid => doc.userId == some uid

/-- CASL `ability.can(action, typeTag)` on a bare subject-type string:
the last defined relevant rule decides (conditions are ignored for
type-level checks); no relevant rule means deny. -/
def canTag (rules : List Rule) (a : Action) (tag : String) : Bool :=
  match rules.reverse.find? (fun r => actionMatches r.action a && subjectMatches r.subject tag) with
  | some r => !r.inverted
  | none => false

/-- CASL `ability.can(action, instance)` on a concrete (normalized)
document: as `canTag`, but a rule is relevant only if its ownership
condition also matches the instance. -/
def canDoc (rules : List Rule) (a : Action) (doc : NormDoc) : Bool :=
  match rules.reverse.find? (fun r =>
      actionMatches r.action a && subjectMatches r.subject doc.baseModelName
        && conditionMatches r.conditionUserId doc) with
  | some r => !r.inverted
  | none => false

/-- A raw subject object reaching `checkPermission`'s normalization, before
`normalizeDocument`: ids already in string form, and `baseModelName` present
only if the object carries that own property. -/
structure RawDoc where
  _id : Option String
  userId : Option String
  baseModelName : Option String
deriving DecidableEq, Repr

/-- `normalizeDocument` (`abilities.ts` lines 62–75). The source spreads the
document (`const copy = { ...doc }`), so `copy` is a plain object whose
`constructor` is `Object`: `copy.constructor?.modelName` is `undefined` and
`copy.constructor?.name` is `"Object"`. Hence the chain
`copy.baseModelName ?? copy.constructor?.modelName ?? copy.constructor?.name ?? 'element'`
yields the document's own `baseModelName` when present and `"Object"`
otherwise. -/
def normalizeDocument (doc : RawDoc) : NormDoc :=
  { _id := doc._id
    userId := doc.userId
    baseModelName := doc.baseModelName.getD "Object" }

/-- The decision taken by the `checkPermission` middleware
(`abilities.ts` lines 193–230) once a subject has been resolved: a string
subject is checked as a type tag, an object subject is normalized and
checked as an instance. -/
def checkPermissionAllows (user : AbilityUser) (action : Action)
    (subject : String ⊕ RawDoc) : Bool :=
  match subject with
  | .inl tag => canTag (defineAbilitiesFor user) action tag
  | .inr doc => canDoc (defineAbilitiesFor user) action (normalizeDocument doc)

/-- There is an unconditioned (no ownership condition) allow rule for the
given action on the given subject type in the rule set (counting `manage`
rules and the `all` wildcard as granting). -/
def hasUnconditionedAllow (rules : List Rule) (a : Action) (tag : String) : Bool :=
  rules.any (fun r => !r.inverted && r.conditionUserId == none
    && actionMatches r.action a && subjectMatches r.subject tag)

/-- There is an ownership-conditioned allow rule for the given action on the
given subject type in the rule set. -/
def hasOwnershipAllow (rules : List Rule) (a : Action) (tag : String) : Bool :=
  rules.any (fun r => !r.inverted && r.conditionUserId != none
    && actionMatches r.action a && subjectMatches r.subject tag)

/-! ### Helper lemmas about `defineAbilitiesFor` and the evaluator -/

/-- Every ownership condition appearing in a principal's rule set is the
principal's own id. -/
lemma cond_mem_defineAbilitiesFor (u : AbilityUser) (r : Rule)
    (h : r ∈ defineAbilitiesFor u) :
    r.conditionUserId = none ∨ r.conditionUserId = some u._id := by
  obtain ⟨id, role⟩ := u
  cases role <;> fin_cases h <;> simp

/-- The only inverted (`cannot`) rule any role ever receives is the Editor
deny of `delete` on `User`. -/
lemma inverted_mem_defineAbilitiesFor (u : AbilityUser) (r : Rule)
    (h : r ∈ defineAbilitiesFor u) (hinv : r.inverted = true) :
    r.action = .delete ∧ r.subject = "User" := by
  obtain ⟨id, role⟩ := u
  cases role <;> fin_cases h <;> simp_all

/-- When no inverted rule is relevant to a query, the last-relevant-rule
scan degenerates to "some relevant rule exists". -/
lemma canDoc_eq_any (rules : List Rule) (a : Action) (doc : NormDoc)
    (h : ∀ r ∈ rules, r.inverted = true →
      (actionMatches r.action a && subjectMatches r.subject doc.baseModelName
        && conditionMatches r.conditionUserId doc) = false) :
    canDoc rules a doc
      = rules.any (fun r => actionMatches r.action a
          && subjectMatches r.subject doc.baseModelName
          && conditionMatches r.conditionUserId doc) := by
  unfold canDoc
  cases hfind : rules.reverse.find? (fun r => actionMatches r.action a
      && subjectMatches r.subject doc.baseModelName
      && conditionMatches r.conditionUserId doc) with
  | none =>
    have hnone := List.find?_eq_none.mp hfind
    symm
    rw [List.any_eq_false]
    intro r hr
    exact hnone r (List.mem_reverse.mpr hr)
  | some r =>
    have hpr := List.find?_some hfind
    have hmem := List.mem_reverse.mp (List.mem_of_find?_eq_some hfind)
    have hinv : r.inverted = false := by
      cases hi : r.inverted
      · rfl
      · exact absurd hpr (by simp [h r hmem hi])
    simp only [hinv, Bool.not_false]
    symm
    rw [List.any_eq_true]
    exact ⟨r, hmem, hpr⟩

/-! ### Claim theorems for the policy engine -/

/-- C1. Role-grant monotonicity: for roles R1 < R2 (Guest < Writer < Editor
< Admin), every unconditioned allow rule that `defineAbilitiesFor` grants a
principal of role R1 is also allowed (at the type level) to a principal of
role R2; and the only negative rule in any role's rule set is the Editor
deny of `delete` on `User`, present exactly when the role is Editor. -/
theorem role_grant_monotonicity :
    (∀ u1 u2 : AbilityUser, roleRank u1.role < roleRank u2.role →
      ∀ r ∈ defineAbilitiesFor u1, r.inverted = false → r.conditionUserId = none →
        canTag (defineAbilitiesFor u2) r.action r.subject = true) ∧
    (∀ u : AbilityUser, (defineAbilitiesFor u).filter (fun r => r.inverted) =
      if u.role = .editor then [⟨true, .delete, "User", none⟩] else []) := by
  constructor
  · rintro ⟨id1, r1⟩ ⟨id2, r2⟩ hlt r hmem hinv hcond
    cases r1 <;> cases r2 <;> simp only [roleRank] at hlt <;>
      first
        | omega
        | (fin_cases hmem <;> rfl)
  · rintro ⟨id, role⟩
    cases role <;> rfl

/-- Witness for C1 at a concrete role pair and rule: the Guest allow of
`read` on `Article` is also granted to an Admin. -/
theorem role_grant_monotonicity_witness :
    roleRank UserRole.guest < roleRank UserRole.admin ∧
    canTag (defineAbilitiesFor ⟨"u2", UserRole.admin⟩) .read "Article" = true :=
  ⟨by decide,
    role_grant_monotonicity.1 ⟨"u1", .guest⟩ ⟨"u2", .admin⟩ (by decide)
      ⟨false, .read, "Article", none⟩ (by decide) rfl rfl⟩

/-- C2. For an Editor principal, `can(editor, 'delete', 'User')` is false
(the explicit deny wins), while `can(editor, 'manage', article)` is true
for every Article instance regardless of its owner. -/
theorem editor_deny_delete_user_manage_articles
    (editorId : String) (ownerId instId : Option String) :
    canTag (defineAbilitiesFor ⟨editorId, .editor⟩) .delete "User" = false ∧
    canDoc (defineAbilitiesFor ⟨editorId, .editor⟩) .manage
      ⟨instId, ownerId, "Article"⟩ = true :=
  ⟨rfl, rfl⟩

/-- C3. Update-permission characterization: for every principal and every
normalized instance, `can(principal, 'update', instance)` holds iff the
rule set has an unconditioned update-or-manage allow on the instance's type
(the `all` wildcard included), or it has an ownership-conditioned update
rule for that type and the instance's owner id (`userId`) equals the
principal's id. -/
theorem update_permission_characterization (u : AbilityUser) (doc : NormDoc) :
    canDoc (defineAbilitiesFor u) .update doc = true ↔
      hasUnconditionedAllow (defineAbilitiesFor u) .update doc.baseModelName = true
      ∨ (hasOwnershipAllow (defineAbilitiesFor u) .update doc.baseModelName = true
         ∧ doc.userId = some u._id) := by
  have hno : ∀ r ∈ defineAbilitiesFor u, r.inverted = true →
      (actionMatches r.action .update && subjectMatches r.subject doc.baseModelName
        && conditionMatches r.conditionUserId doc) = false := by
    intro r hr hi
    obtain ⟨ha, _⟩ := inverted_mem_defineAbilitiesFor u r hr hi
    simp [ha, actionMatches]
  rw [canDoc_eq_any _ _ _ hno, List.any_eq_true]
  constructor
  · rintro ⟨r, hmem, hpred⟩
    have hinv : r.inverted = false := by
      cases hi : r.inverted
      · rfl
      · exact absurd hpred (by simp [hno r hmem hi])
    simp only [Bool.and_eq_true] at hpred
    obtain ⟨⟨hact, hsubj⟩, hcond⟩ := hpred
    rcases cond_mem_defineAbilitiesFor u r hmem with hc | hc
    · left
      unfold hasUnconditionedAllow
      rw [List.any_eq_true]
      exact ⟨r, hmem, by simp [hinv, hc, hact, hsubj]⟩
    · right
      refine ⟨?_, ?_⟩
      · unfold hasOwnershipAllow
        rw [List.any_eq_true]
        exact ⟨r, hmem, by simp [hinv, hc, hact, hsubj]⟩
      · have hcm : conditionMatches r.conditionUserId doc = true := hcond
        rw [hc] at hcm
        simpa [conditionMatches] using hcm
  · rintro (h | ⟨h, hown⟩)
    · unfold hasUnconditionedAllow at h
      rw [List.any_eq_true] at h
      obtain ⟨r, hmem, hr⟩ := h
      simp only [Bool.and_eq_true] at hr
      obtain ⟨⟨⟨hinv, hc⟩, hact⟩, hsubj⟩ := hr
      refine ⟨r, hmem, ?_⟩
      have hcn : r.conditionUserId = none := by simpa using hc
      simp [hact, hsubj, conditionMatches, hcn]
    · unfold hasOwnershipAllow at h
      rw [List.any_eq_true] at h
      obtain ⟨r, hmem, hr⟩ := h
      simp only [Bool.and_eq_true] at hr
      obtain ⟨⟨⟨hinv, hc⟩, hact⟩, hsubj⟩ := hr
      have hcm : r.conditionUserId = some u._id := by
        rcases cond_mem_defineAbilitiesFor u r hmem with h0 | h0
        · rw [h0] at hc
          simp at hc
        · exact h0
      refine ⟨r, hmem, ?_⟩
      simp [hact, hsubj, conditionMatches, hcm, hown]

/-- C10. A subject object with no own `baseModelName` property is tagged
`"Object"` by `normalizeDocument` (the spread copy's constructor is
`Object`), so no Article/Comment/Reply/User rule matches it: the
`checkPermission` decision denies every action for every non-Admin
principal, while an Admin principal (whose `manage all` wildcard is the
only rule that can match the tag) is still allowed. -/
theorem untyped_subject_denied (u : AbilityUser) (doc : RawDoc) (a : Action)
    (hb : doc.baseModelName = none) (hrole : u.role ≠ .admin) :
    (normalizeDocument doc).baseModelName = "Object" ∧
    checkPermissionAllows u a (.inr doc) = false ∧
    checkPermissionAllows ⟨u._id, .admin⟩ a (.inr doc) = true := by
  obtain ⟨id, role⟩ := u
  have hnorm : normalizeDocument doc = ⟨doc._id, doc.userId, "Object"⟩ := by
    simp [normalizeDocument, hb]
  refine ⟨by rw [hnorm], ?_, ?_⟩
  · show canDoc (defineAbilitiesFor ⟨id, role⟩) a (normalizeDocument doc) = false
    rw [hnorm]
    cases role <;> first
      | exact absurd rfl hrole
      | cases a <;> rfl
  · show canDoc (defineAbilitiesFor ⟨id, .admin⟩) a (normalizeDocument doc) = true
    rw [hnorm]
    cases a <;> rfl

/-- Witness for C10 at a concrete untyped document, a Guest principal and
the `delete` action. -/
theorem untyped_subject_denied_witness :
    (normalizeDocument ⟨some "i", some "o", none⟩).baseModelName = "Object" ∧
    checkPermissionAllows ⟨"u", .guest⟩ .delete (.inr ⟨some "i", some "o", none⟩) = false ∧
    checkPermissionAllows ⟨"u", .admin⟩ .delete (.inr ⟨some "i", some "o", none⟩) = true :=
  untyped_subject_denied ⟨"u", .guest⟩ ⟨some "i", some "o", none⟩ .delete rfl (by decide)

/-! ## Token service: `src/utils/jwt.ts` (`src/unnamed/part_004`)

Times are Unix seconds (`Math.floor(Date.now() / 1000)` in the source). -/

/-- The `type` discriminator of `JWTPayload`. -/
inductive TokenType where
  | access
  | refresh
deriving DecidableEq, Repr

/-- `JWTPayload` from `jwt.ts`: identity claims, token type, and optional
`iat`/`exp` timestamps. -/
structure JWTPayload where
  userId : String
  email : String
  role : String
  type : TokenType
  iat : Option Nat
  exp : Option Nat
deriving DecidableEq, Repr

/-- A JWT string as the verifier sees it: either a decodable token carrying
its payload, the secret it was signed with (standing in for the signature:
the signature verifies iff the verification secret equals it), and the
`iss`/`aud` claims, or a malformed string. -/
inductive Token where
  | signed (payload : JWTPayload) (secret issuer audience : String)
  | malformed
deriving DecidableEq, Repr

/-- Errors raised by `jsonwebtoken.verify`, by the check that produced
them. -/
inductive JwtVerifyError where
  | tokenExpired
  | malformedToken
  | invalidSignature
  | badAudience
  | badIssuer
deriving DecidableEq, Repr

/-- JavaScript error values thrown by the token service: `ForbiddenError`
(from `utils/errors`) or a plain `Error`, each with its message. -/
inductive AppError where
  | forbiddenError (msg : String)
  | plainError (msg : String)
deriving DecidableEq, Repr

/-- `JWT_CONFIG.ACCESS_TOKEN_EXPIRY = 15 * 60`. -/
def ACCESS_TOKEN_EXPIRY : Nat := 15 * 60

/-- `JWT_CONFIG.REFRESH_TOKEN_EXPIRY = 7 * 24 * 60 * 60`. -/
def REFRESH_TOKEN_EXPIRY : Nat := 7 * 24 * 60 * 60

/-- `issuer: 'blog-backend'` used for both signing and verification. -/
def ISSUER : String := "blog-backend"

/-- `audience: 'blog-users'` used for both signing and verification. -/
def AUDIENCE : String := "blog-users"

/-- The two secrets from `JWT_CONFIG` (loaded from environment). -/
structure JwtConfig where
  accessSecret : String
  refreshSecret : String
deriving DecidableEq, Repr

/-- The user slice passed to `generateTokens`: `_id` (stringified), email,
role. -/
structure TokenUser where
  _id : String
  email : String
  role : String
deriving DecidableEq, Repr

/-- `jsonwebtoken.sign(payload, secret, {issuer, audience})`: fails when the
secret is missing, otherwise produces a token bound to the secret and the
`iss`/`aud` claims. -/
def jwtSign (payload : JWTPayload) (secret issuer audience : String) :
    Except String Token :=
  if secret = "" then .error "secretOrPrivateKey must have a value"
  else .ok (.signed payload secret issuer audience)

/-- `jsonwebtoken.verify(token, secret, {issuer, audience})` at clock time
`now`: decode (malformed check), then signature, then `exp`
(expired iff `now ≥ exp`), then audience, then issuer — in that order. -/
def jwtVerify (tok : Token) (secret issuer audience : String) (now : Nat) :
    Except JwtVerifyError JWTPayload :=
  match tok with
  | .malformed => .error .malformedToken
  | .signed payload s i a =>
    if s ≠ secret then .error .invalidSignature
    else if (match payload.exp with
        | some e => decide (e ≤ now)
        | none => false) then .error .tokenExpired
    else if a ≠ audience then .error .badAudience
    else if i ≠ issuer then .error .badIssuer
    else .ok payload

/-- `JWTToken` returned by `generateTokens`: the token pair and
`expiresIn` in milliseconds. -/
structure JWTToken where
  accessToken : Token
  refreshToken : Token
  expiresIn : Nat
deriving DecidableEq, Repr

/-- `generateTokens` (`jwt.ts` lines 47–86): builds the access payload with
`iat = now`, `exp = now + ACCESS_TOKEN_EXPIRY`, the refresh payload as a
copy with `type = refresh` and `exp = now + REFRESH_TOKEN_EXPIRY`, signs
each with its own secret, and wraps any signing failure into
`Failed to generate tokens`. -/
def generateTokens (cfg : JwtConfig) (user : TokenUser) (now : Nat) :
    Except AppError JWTToken :=
  let payload : JWTPayload :=
    ⟨user._id, user.email, user.role, .access, some now, some (now + ACCESS_TOKEN_EXPIRY)⟩
  let refreshPayload : JWTPayload :=
    { payload with type := .refresh, exp := some (now + REFRESH_TOKEN_EXPIRY) }
  match jwtSign payload cfg.accessSecret ISSUER AUDIENCE,
      jwtSign refreshPayload cfg.refreshSecret ISSUER AUDIENCE with
  | .ok acc, .ok ref => .ok ⟨acc, ref, ACCESS_TOKEN_EXPIRY * 1000⟩
  | _, _ => .error (.plainError "Failed to generate tokens")

/-- `getJwtSecret` (`jwt.ts` lines 92–100): the access secret, or a thrown
configuration error when unset. -/
def getJwtSecret (cfg : JwtConfig) : Except AppError String :=
  if cfg.accessSecret = "" then
    .error (.plainError "JWT access token secret is not configured")
  else .ok cfg.accessSecret

/-- `verifyAccessToken` (`jwt.ts` lines 108–145): verify with the access
secret, require `type === 'access'`, and map `jsonwebtoken` failures to the
service's error taxonomy (expired → `ForbiddenError 'Access token expired'`,
malformed/signature → specific `ForbiddenError`s, type mismatch rethrown as
`Error 'Invalid token type'`, anything else wrapped generically). -/
def verifyAccessToken (cfg : JwtConfig) (token : Token) (now : Nat) :
    Except AppError JWTPayload :=
  match getJwtSecret cfg with
  | .error e => .error e
  | .ok secret =>
    match jwtVerify token secret ISSUER AUDIENCE now with
    | .ok decoded =>
      if decoded.type ≠ .access then .error (.plainError "Invalid token type")
      else .ok decoded
    | .error .tokenExpired => .error (.forbiddenError "Access token expired")
    | .error .malformedToken =>
      .error (.forbiddenError "Invalid access token: Invalid token format")
    | .error .invalidSignature =>
      .error (.forbiddenError "Invalid access token: Invalid signature")
    | .error .badAudience => .error (.plainError "Invalid access token: jwt audience invalid")
    | .error .badIssuer => .error (.plainError "Invalid access token: jwt issuer invalid")

/-- `verifyRefreshToken` (`jwt.ts` lines 153–186): verify with the refresh
secret, require `type === 'refresh'`. An unset refresh secret is thrown
inside the `try`, so its message matches no specific branch and surfaces as
the catch-all `Invalid refresh token`; expired maps to a plain
`Refresh token expired`; audience/issuer failures also hit the catch-all. -/
def verifyRefreshToken (cfg : JwtConfig) (token : Token) (now : Nat) :
    Except AppError JWTPayload :=
  if cfg.refreshSecret = "" then .error (.plainError "Invalid refresh token")
  else
    match jwtVerify token cfg.refreshSecret ISSUER AUDIENCE now with
    | .ok decoded =>
      if decoded.type ≠ .refresh then .error (.plainError "Invalid token type")
      else .ok decoded
    | .error .tokenExpired => .error (.plainError "Refresh token expired")
    | .error .malformedToken =>
      .error (.plainError "Invalid refresh token: Invalid token format")
    | .error .invalidSignature =>
      .error (.plainError "Invalid refresh token: Invalid signature")
    | .error .badAudience => .error (.plainError "Invalid refresh token")
    | .error .badIssuer => .error (.plainError "Invalid refresh token")

/-- `refreshAccessToken` (`jwt.ts` lines 194–222): verify the refresh
token, then sign a brand-new access payload from the decoded identity
claims with `expiresIn: ACCESS_TOKEN_EXPIRY` (so `jsonwebtoken` stamps
`iat = now`, `exp = now + ACCESS_TOKEN_EXPIRY`); returns the new access
token and `expiresIn` in milliseconds. -/
def refreshAccessToken (cfg : JwtConfig) (token : Token) (now : Nat) :
    Except AppError (Token × Nat) :=
  match verifyRefreshToken cfg token now with
  | .error e => .error e
  | .ok decoded =>
    let payload : JWTPayload :=
      ⟨decoded.userId, decoded.email, decoded.role, .access,
        some now, some (now + ACCESS_TOKEN_EXPIRY)⟩
    match jwtSign payload cfg.accessSecret ISSUER AUDIENCE with
    | .ok t => .ok (t, ACCESS_TOKEN_EXPIRY * 1000)
    | .error _ => .error (.plainError "Failed to refresh access token")

/-! ### Claim theorems for the token service -/

/-- C4. Access-token round trip: issuing a token pair for a principal and
verifying the access token (with valid secret configuration, before the
access expiry) succeeds with a payload whose `userId` is the principal's
id, whose `type` is `access`, and whose `exp - iat` is 900 seconds. -/
theorem access_token_round_trip (cfg : JwtConfig) (user : TokenUser) (now t : Nat)
    (hA : cfg.accessSecret ≠ "") (hR : cfg.refreshSecret ≠ "")
    (ht : t < now + ACCESS_TOKEN_EXPIRY) :
    ∃ tokens, generateTokens cfg user now = .ok tokens ∧
      verifyAccessToken cfg tokens.accessToken t =
        .ok ⟨user._id, user.email, user.role, .access, some now,
          some (now + ACCESS_TOKEN_EXPIRY)⟩ ∧
      (now + ACCESS_TOKEN_EXPIRY) - now = 900 := by
  have hexp : ¬ (now + ACCESS_TOKEN_EXPIRY ≤ t) := by omega
  refine ⟨⟨.signed ⟨user._id, user.email, user.role, .access, some now,
        some (now + ACCESS_TOKEN_EXPIRY)⟩ cfg.accessSecret ISSUER AUDIENCE,
      .signed ⟨user._id, user.email, user.role, .refresh, some now,
        some (now + REFRESH_TOKEN_EXPIRY)⟩ cfg.refreshSecret ISSUER AUDIENCE,
      ACCESS_TOKEN_EXPIRY * 1000⟩, ?_, ?_, by simp [ACCESS_TOKEN_EXPIRY]⟩
  · simp [generateTokens, jwtSign, hA, hR]
  · simp [verifyAccessToken, getJwtSecret, hA, jwtVerify, hexp]

/-- Witness for C4 at a concrete configuration, principal and clock. -/
theorem access_token_round_trip_witness :
    (("secret-a" : String) ≠ "" ∧ ("secret-r" : String) ≠ "" ∧
      (0 : Nat) < 0 + ACCESS_TOKEN_EXPIRY) ∧
    ∃ tokens,
      generateTokens ⟨"secret-a", "secret-r"⟩ ⟨"u1", "u1@example.com", "guest"⟩ 0 = .ok tokens ∧
      verifyAccessToken ⟨"secret-a", "secret-r"⟩ tokens.accessToken 0 =
        .ok ⟨"u1", "u1@example.com", "guest", .access, some 0, some (0 + ACCESS_TOKEN_EXPIRY)⟩ ∧
      (0 + ACCESS_TOKEN_EXPIRY) - 0 = 900 :=
  ⟨⟨by decide, by decide, by decide⟩,
    access_token_round_trip ⟨"secret-a", "secret-r"⟩ ⟨"u1", "u1@example.com", "guest"⟩ 0 0
      (by decide) (by decide) (by decide)⟩

/-- C5 counterexample: with the configured distinct secrets, verifying the
refresh token of an issued pair in the access context fails with the
*signature* error — not the type-mismatch error the claim names (the
signature is checked before the `type` discriminator is ever reached). -/
theorem token_type_separation_counterexample :
    ∃ tokens,
      generateTokens ⟨"access-secret", "refresh-secret"⟩ ⟨"u1", "u1@example.com", "guest"⟩ 1000
        = .ok tokens ∧
      verifyAccessToken ⟨"access-secret", "refresh-secret"⟩ tokens.refreshToken 1000 =
        .error (.forbiddenError "Invalid access token: Invalid signature") ∧
      verifyAccessToken ⟨"access-secret", "refresh-secret"⟩ tokens.refreshToken 1000 ≠
        .error (.plainError "Invalid token type") :=
  ⟨_, rfl, rfl, by decide⟩

/-- C5 (amended). Cross-type verification never succeeds, in either
direction; when the access and refresh secrets differ (the configured
case) it fails with the signature error, and only when the two secrets
coincide (and the token is unexpired) does it fail with the type-mismatch
error. -/
theorem token_type_separation_amended (cfg : JwtConfig) (user : TokenUser) (now t : Nat)
    (hA : cfg.accessSecret ≠ "") (hR : cfg.refreshSecret ≠ "") :
    ∃ tokens, generateTokens cfg user now = .ok tokens ∧
      (∀ p, verifyAccessToken cfg tokens.refreshToken t ≠ .ok p) ∧
      (∀ p, verifyRefreshToken cfg tokens.accessToken t ≠ .ok p) ∧
      (cfg.accessSecret ≠ cfg.refreshSecret →
        verifyAccessToken cfg tokens.refreshToken t =
          .error (.forbiddenError "Invalid access token: Invalid signature") ∧
        verifyRefreshToken cfg tokens.accessToken t =
          .error (.plainError "Invalid refresh token: Invalid signature")) ∧
      (cfg.accessSecret = cfg.refreshSecret → t < now + ACCESS_TOKEN_EXPIRY →
        verifyAccessToken cfg tokens.refreshToken t =
          .error (.plainError "Invalid token type") ∧
        verifyRefreshToken cfg tokens.accessToken t =
          .error (.plainError "Invalid token type")) := by
  refine ⟨⟨.signed ⟨user._id, user.email, user.role, .access, some now,
        some (now + ACCESS_TOKEN_EXPIRY)⟩ cfg.accessSecret ISSUER AUDIENCE,
      .signed ⟨user._id, user.email, user.role, .refresh, some now,
        some (now + REFRESH_TOKEN_EXPIRY)⟩ cfg.refreshSecret ISSUER AUDIENCE,
      ACCESS_TOKEN_EXPIRY * 1000⟩, by simp [generateTokens, jwtSign, hA, hR], ?_, ?_, ?_, ?_⟩
  · intro p
    by_cases hne : cfg.refreshSecret = cfg.accessSecret
    · by_cases hexp : now + REFRESH_TOKEN_EXPIRY ≤ t
      · simp [verifyAccessToken, getJwtSecret, hA, jwtVerify, hne, hexp]
      · simp [verifyAccessToken, getJwtSecret, hA, jwtVerify, hne, hexp]
    · simp [verifyAccessToken, getJwtSecret, hA, jwtVerify, hne]
  · intro p
    by_cases hne : cfg.accessSecret = cfg.refreshSecret
    · by_cases hexp : now + ACCESS_TOKEN_EXPIRY ≤ t
      · simp [verifyRefreshToken, hR, jwtVerify, hne, hexp]
      · simp [verifyRefreshToken, hR, jwtVerify, hne, hexp]
    · simp [verifyRefreshToken, hR, jwtVerify, hne]
  · intro hne
    have hne1 : cfg.refreshSecret ≠ cfg.accessSecret := fun h => hne h.symm
    constructor
    · simp [verifyAccessToken, getJwtSecret, hA, jwtVerify, hne1]
    · simp [verifyRefreshToken, hR, jwtVerify, hne]
  · intro heq ht
    have hexpA : ¬ (now + ACCESS_TOKEN_EXPIRY ≤ t) := by omega
    have hexpR : ¬ (now + REFRESH_TOKEN_EXPIRY ≤ t) := by
      simp only [ACCESS_TOKEN_EXPIRY] at ht
      simp only [REFRESH_TOKEN_EXPIRY]
      omega
    constructor
    · simp [verifyAccessToken, getJwtSecret, hA, hR, jwtVerify, heq, hexpR]
    · simp [verifyRefreshToken, hA, hR, jwtVerify, heq, hexpA]

/-- Witness for C5's amended theorem at a concrete configuration with
distinct secrets. -/
theorem token_type_separation_amended_witness :
    (("sa" : String) ≠ "" ∧ ("sr" : String) ≠ "") ∧
    ∃ tokens, generateTokens ⟨"sa", "sr"⟩ ⟨"u2", "u2@example.com", "writer"⟩ 50 = .ok tokens ∧
      (∀ p, verifyAccessToken ⟨"sa", "sr"⟩ tokens.refreshToken 60 ≠ .ok p) ∧
      (∀ p, verifyRefreshToken ⟨"sa", "sr"⟩ tokens.accessToken 60 ≠ .ok p) ∧
      ((JwtConfig.mk "sa" "sr").accessSecret ≠ (JwtConfig.mk "sa" "sr").refreshSecret →
        verifyAccessToken ⟨"sa", "sr"⟩ tokens.refreshToken 60 =
          .error (.forbiddenError "Invalid access token: Invalid signature") ∧
        verifyRefreshToken ⟨"sa", "sr"⟩ tokens.accessToken 60 =
          .error (.plainError "Invalid refresh token: Invalid signature")) ∧
      ((JwtConfig.mk "sa" "sr").accessSecret = (JwtConfig.mk "sa" "sr").refreshSecret →
        60 < 50 + ACCESS_TOKEN_EXPIRY →
        verifyAccessToken ⟨"sa", "sr"⟩ tokens.refreshToken 60 =
          .error (.plainError "Invalid token type") ∧
        verifyRefreshToken ⟨"sa", "sr"⟩ tokens.accessToken 60 =
          .error (.plainError "Invalid token type")) :=
  ⟨⟨by decide, by decide⟩,
    token_type_separation_amended ⟨"sa", "sr"⟩ ⟨"u2", "u2@example.com", "writer"⟩ 50 60
      (by decide) (by decide)⟩

/-- C6 counterexample: a token whose embedded expiry is long past but whose
signature does not verify is rejected with the *signature* error, not the
expired-token error — the signature is checked first, so "regardless of
signature validity" fails. -/
theorem expired_token_rejection_counterexample :
    verifyAccessToken ⟨"right-secret", "sr"⟩
        (.signed ⟨"u1", "u1@example.com", "guest", .access, some 0, some 10⟩
          "wrong-secret" ISSUER AUDIENCE) 1000 =
      .error (.forbiddenError "Invalid access token: Invalid signature") ∧
    verifyAccessToken ⟨"right-secret", "sr"⟩
        (.signed ⟨"u1", "u1@example.com", "guest", .access, some 0, some 10⟩
          "wrong-secret" ISSUER AUDIENCE) 1000 ≠
      .error (.forbiddenError "Access token expired") :=
  ⟨rfl, by decide⟩

/-- C6 (amended). A decodable token whose embedded expiry is at or before
the verification clock is rejected: with a *valid* signature it fails with
the expired-token error (the expiry check precedes even the audience and
issuer checks), while with an invalid signature it fails with the
signature error instead — in both contexts (access and refresh). -/
theorem expired_token_rejection_amended (cfg : JwtConfig) (p : JWTPayload)
    (s i a : String) (t e : Nat) (hA : cfg.accessSecret ≠ "") (hR : cfg.refreshSecret ≠ "")
    (hexp : p.exp = some e) (hpast : e ≤ t) :
    (s = cfg.accessSecret →
      verifyAccessToken cfg (.signed p s i a) t =
        .error (.forbiddenError "Access token expired")) ∧
    (s ≠ cfg.accessSecret →
      verifyAccessToken cfg (.signed p s i a) t =
        .error (.forbiddenError "Invalid access token: Invalid signature")) ∧
    (s = cfg.refreshSecret →
      verifyRefreshToken cfg (.signed p s i a) t =
        .error (.plainError "Refresh token expired")) ∧
    (s ≠ cfg.refreshSecret →
      verifyRefreshToken cfg (.signed p s i a) t =
        .error (.plainError "Invalid refresh token: Invalid signature")) := by
  refine ⟨?_, ?_, ?_, ?_⟩
  · intro hs
    simp [verifyAccessToken, getJwtSecret, hA, jwtVerify, hs, hexp, hpast]
  · intro hs
    simp [verifyAccessToken, getJwtSecret, hA, jwtVerify, hs]
  · intro hs
    simp [verifyRefreshToken, hR, jwtVerify, hs, hexp, hpast]
  · intro hs
    simp [verifyRefreshToken, hR, jwtVerify, hs]

/-- Witness for C6's amended theorem at a concrete expired token in both
the valid- and invalid-signature cases. -/
theorem expired_token_rejection_amended_witness :
    (("ka" : String) ≠ "" ∧ ("kr" : String) ≠ "" ∧
      (JWTPayload.mk "u3" "u3@example.com" "editor" .access (some 0) (some 10)).exp = some 10 ∧
      (10 : Nat) ≤ 500) ∧
    (("ka" : String) = ("ka" : String) →
      verifyAccessToken ⟨"ka", "kr"⟩
          (.signed ⟨"u3", "u3@example.com", "editor", .access, some 0, some 10⟩ "ka" ISSUER AUDIENCE) 500 =
        .error (.forbiddenError "Access token expired")) ∧
    (("ka" : String) ≠ ("ka" : String) →
      verifyAccessToken ⟨"ka", "kr"⟩
          (.signed ⟨"u3", "u3@example.com", "editor", .access, some 0, some 10⟩ "ka" ISSUER AUDIENCE) 500 =
        .error (.forbiddenError "Invalid access token: Invalid signature")) ∧
    (("ka" : String) = ("kr" : String) →
      verifyRefreshToken ⟨"ka", "kr"⟩
          (.signed ⟨"u3", "u3@example.com", "editor", .access, some 0, some 10⟩ "ka" ISSUER AUDIENCE) 500 =
        .error (.plainError "Refresh token expired")) ∧
    (("ka" : String) ≠ ("kr" : String) →
      verifyRefreshToken ⟨"ka", "kr"⟩
          (.signed ⟨"u3", "u3@example.com", "editor", .access, some 0, some 10⟩ "ka" ISSUER AUDIENCE) 500 =
        .error (.plainError "Invalid refresh token: Invalid signature")) :=
  ⟨⟨by decide, by decide, rfl, by decide⟩,
    expired_token_rejection_amended ⟨"ka", "kr"⟩
      ⟨"u3", "u3@example.com", "editor", .access, some 0, some 10⟩ "ka" ISSUER AUDIENCE 500 10
      (by decide) (by decide) rfl (by decide)⟩

/-- C7. Refresh-driven renewal: when the refresh token verifies, the code
issues a brand-new access token carrying the decoded identity claims
(`userId`, `email`, `role`), stamped `iat = now` and
`exp = now + 900`; when refresh verification fails, the whole operation
fails with that error and no token is produced. -/
theorem refresh_renewal (cfg : JwtConfig) (tok : Token) (t : Nat)
    (hA : cfg.accessSecret ≠ "") :
    (∀ d, verifyRefreshToken cfg tok t = .ok d →
      refreshAccessToken cfg tok t =
        .ok (.signed ⟨d.userId, d.email, d.role, .access, some t,
              some (t + ACCESS_TOKEN_EXPIRY)⟩ cfg.accessSecret ISSUER AUDIENCE,
            ACCESS_TOKEN_EXPIRY * 1000) ∧
      (t + ACCESS_TOKEN_EXPIRY) - t = 900) ∧
    (∀ e, verifyRefreshToken cfg tok t = .error e →
      refreshAccessToken cfg tok t = .error e) := by
  constructor
  · intro d hd
    refine ⟨?_, by simp [ACCESS_TOKEN_EXPIRY]⟩
    unfold refreshAccessToken
    rw [hd]
    simp [jwtSign, hA]
  · intro e he
    unfold refreshAccessToken
    rw [he]

/-- Witness for C7 at a concrete valid refresh token. -/
theorem refresh_renewal_witness :
    refreshAccessToken ⟨"wa", "wr"⟩
        (.signed ⟨"u4", "u4@example.com", "guest", .refresh, some 0, some 100⟩ "wr" ISSUER AUDIENCE) 50 =
      .ok (.signed ⟨"u4", "u4@example.com", "guest", .access, some 50, some (50 + ACCESS_TOKEN_EXPIRY)⟩
            "wa" ISSUER AUDIENCE,
          ACCESS_TOKEN_EXPIRY * 1000) ∧
    (50 + ACCESS_TOKEN_EXPIRY) - 50 = 900 :=
  (refresh_renewal ⟨"wa", "wr"⟩
      (.signed ⟨"u4", "u4@example.com", "guest", .refresh, some 0, some 100⟩ "wr" ISSUER AUDIENCE)
      50 (by decide)).1
    ⟨"u4", "u4@example.com", "guest", .refresh, some 0, some 100⟩ rfl

/-! ## Admin role-update endpoint

`PATCH /admin/users/:userId` is wired (user routes) as
`[authenticate, authorize(UserRole.ADMIN)]`, then `validate(updateRoleSchema)`,
then `userController.updateUserRole` (`user.controller.ts` lines 266–292).
`authorize` receives the bare string `'admin'` where a `string[]` is
expected, so `allowedRoles.includes(role)` is JavaScript
`String.prototype.includes` — a substring test. -/

/-- `req.user` as attached by the authentication middleware. -/
structure ReqUser where
  userId : String
  email : String
  role : String
deriving DecidableEq, Repr

/-- A stored user document, restricted to the fields the role-update path
touches. -/
structure StoredUser where
  _id : String
  role : String
deriving DecidableEq, Repr

/-- Whether `needle` is an initial run of `hay` (character lists). -/
def chunkStarts : List Char → List Char → Bool
  | [], _ => true
  | _ :: _, [] => false
  | a :: as, b :: bs => a == b && chunkStarts as bs

/-- Whether `needle` occurs contiguously inside `hay` (character lists). -/
def chunkWithin : List Char → List Char → Bool
  | needle, [] => chunkStarts needle []
  | needle, b :: bs => chunkStarts needle (b :: bs) || chunkWithin needle bs

/-- JavaScript `hay.includes(needle)` on strings: substring containment. -/
def jsStringIncludes (hay needle : String) : Bool :=
  chunkWithin needle.toList hay.toList

/-- The `authorize(allowedRoles)` check (`auth.middleware.ts` lines 82–100)
as invoked by the role-update route, where `allowedRoles` is the *string*
`'admin'`: `allowedRoles.includes(req.user.role)`. -/
def authorizeAllows (allowedRoles role : String) : Bool :=
  jsStringIncludes allowedRoles role

/-- The HTTP outcome of the role-update endpoint. -/
inductive RoleUpdateOutcome where
  | unauthenticated
  | forbidden
  | notFound
  | success (updated : StoredUser)
deriving DecidableEq, Repr

/-- The wired `PATCH /admin/users/:userId` pipeline: `authorize('admin')`
(401 with no authenticated user, 403 when the substring test fails), then
the controller `updateUserRole`: find the target by id (404 when absent),
assign `user.role = role`, save, 200. The controller performs no
comparison between the new role and the target's current role. Returns the
outcome and the resulting user store. -/
def updateUserRoleEndpoint (actor : Option ReqUser) (db : List StoredUser)
    (targetId newRole : String) : RoleUpdateOutcome × List StoredUser :=
  match actor with
  | none => (.unauthenticated, db)
  | some u =>
    if !(authorizeAllows "admin" u.role) then (.forbidden, db)
    else
      match db.find? (fun s => s._id == targetId) with
      | none => (.notFound, db)
      | some target =>
        let updated : StoredUser := { target with role := newRole }
        (.success updated, db.map (fun s => if s._id == targetId then updated else s))

/-- The `roleHierarchy` map of `user.model.ts` (lines 249–254):
`guest ↦ 0, writer ↦ 1, editor ↦ 2, admin ↦ 3`, undefined elsewhere. -/
def roleHierarchy (r : String) : Option Nat :=
  if r = "guest" then some 0
  else if r = "writer" then some 1
  else if r = "editor" then some 2
  else if r = "admin" then some 3
  else none

/-- JavaScript `x <= y` on possibly-undefined numbers: comparisons
involving `undefined` are false. -/
def jsLe (x y : Option Nat) : Bool :=
  match x, y with
  | some a, some b => a ≤ b
  | _, _ => false

/-- The *model-layer* `updateUserRole` helper (`user.model.ts` lines
244–273) — which the wired controller does **not** call: it rejects
non-admin actors and rejects any new role not strictly higher than the
target's current role, mutating the store only on success. -/
def modelUpdateUserRole (currentUserRole : String) (db : List StoredUser)
    (userId newRole : String) : Except String (Option StoredUser × List StoredUser) :=
  if currentUserRole ≠ "admin" then
    .error "Unauthorized: Only admins can update user roles"
  else
    match db.find? (fun s => s._id == userId) with
    | none => .ok (none, db)
    | some user =>
      if jsLe (roleHierarchy newRole) (roleHierarchy user.role) then
        .error "Cannot assign a role that is not higher than the current role"
      else
        let updated : StoredUser := { user with role := newRole }
        .ok (some updated, db.map (fun s => if s._id == userId then updated else s))

/-- C8 failing input, evaluated: an Admin actor demotes a target whose
current role is `admin` to `guest`. The wired endpoint reports success and
the stored role changes, although the new role does not strictly exceed
the target's previous role — the very input the repository's own
model-layer helper rejects with
`Cannot assign a role that is not higher than the current role`. -/
theorem role_elevation_violation :
    (updateUserRoleEndpoint (some ⟨"a1", "admin@example.com", "admin"⟩)
        [⟨"u1", "admin"⟩] "u1" "guest").1 = .success ⟨"u1", "guest"⟩ ∧
    (updateUserRoleEndpoint (some ⟨"a1", "admin@example.com", "admin"⟩)
        [⟨"u1", "admin"⟩] "u1" "guest").2 = [⟨"u1", "guest"⟩] ∧
    jsLe (roleHierarchy "guest") (roleHierarchy "admin") = true ∧
    modelUpdateUserRole "admin" [⟨"u1", "admin"⟩] "u1" "guest" =
      .error "Cannot assign a role that is not higher than the current role" := by
  decide

/-! ## Notification dispatch:
`src/modules/notifications/notification.service.ts` -/

/-- `CreateNotificationDto` as consumed by `createAndEmitNotification`. -/
structure CreateNotificationDto where
  userId : String
  type : String
  message : String
  referenceId : String
  referenceModel : String
  metadata : Option (List (String × String))
deriving DecidableEq, Repr

/-- A persisted notification record (ids kept in string form). -/
structure NotificationRecord where
  userId : String
  type : String
  message : String
  referenceId : String
  referenceModel : String
  metadata : List (String × String)
  read : Bool
deriving DecidableEq, Repr

/-- The Socket.IO server state the service sees: which users have joined
their `user_<id>` room. -/
structure SocketChannels where
  joinedUsers : List String
deriving DecidableEq, Repr

/-- The notification service's state: the persisted records and the
`io` field (null until `initialize` is called). -/
structure NotifState where
  persisted : List NotificationRecord
  io : Option SocketChannels
deriving DecidableEq, Repr

/-- What `emitNotification` did: returned early because `io` was null
(`console.warn`, no error), or emitted into the target's room —
`connected` records whether anyone had joined it (an empty room is not an
error either). -/
inductive EmitOutcome where
  | skippedNotInitialized
  | emittedToRoom (room : String) (connected : Bool)
deriving DecidableEq, Repr

/-- `emitNotification` (`notification.service.ts` lines 82–95): a null
`io` is swallowed with a warning; otherwise
`io.to('user_' + userId).emit(...)`, which never fails even when the room
is empty. -/
def emitNotification (io : Option SocketChannels) (n : NotificationRecord) :
    EmitOutcome :=
  match io with
  | none => .skippedNotInitialized
  | some ch => .emittedToRoom ("user_" ++ n.userId) (ch.joinedUsers.contains n.userId)

/-- The record `Notification.create` persists from a DTO:
`metadata: createDto.metadata || {}`, `read: false`. -/
def mkNotificationRecord (dto : CreateNotificationDto) : NotificationRecord :=
  ⟨dto.userId, dto.type, dto.message, dto.referenceId, dto.referenceModel,
    dto.metadata.getD [], false⟩

/-- `createAndEmitNotification` (`notification.service.ts` lines 41–77):
persist the record first, then attempt the push, then return the record —
the push outcome never alters the return value or the persisted store. -/
def createAndEmitNotification (st : NotifState) (dto : CreateNotificationDto) :
    NotifState × EmitOutcome × Except String NotificationRecord :=
  let record := mkNotificationRecord dto
  let persisted := st.persisted ++ [record]
  let outcome := emitNotification st.io record
  ({ st with persisted := persisted }, outcome, .ok record)

/-- C9. Notification dispatch is best-effort: the record is persisted
first and `createAndEmitNotification` returns it successfully for *every*
channel state — in particular when `io` is uninitialized (push skipped
with a warning) and when the target has not joined their room — so a
failed real-time push never fails the operation or loses the record. -/
theorem notification_dispatch_best_effort (st : NotifState) (dto : CreateNotificationDto) :
    (createAndEmitNotification st dto).2.2 = .ok (mkNotificationRecord dto) ∧
    (createAndEmitNotification st dto).1.persisted
      = st.persisted ++ [mkNotificationRecord dto] ∧
    (st.io = none →
      (createAndEmitNotification st dto).2.1 = .skippedNotInitialized) ∧
    (∀ ch, st.io = some ch → ch.joinedUsers.contains dto.userId = false →
      (createAndEmitNotification st dto).2.1
          = .emittedToRoom ("user_" ++ dto.userId) false ∧
        (createAndEmitNotification st dto).2.2 = .ok (mkNotificationRecord dto)) := by
  refine ⟨rfl, rfl, ?_, ?_⟩
  · intro h
    simp [createAndEmitNotification, emitNotification, h]
  · intro ch h hconn
    constructor
    · simp only [createAndEmitNotification, emitNotification, h, mkNotificationRecord]
      rw [hconn]
    · rfl

/-- Witness for C9 at a concrete DTO and an uninitialized channel. -/
theorem notification_dispatch_best_effort_witness :
    (createAndEmitNotification ⟨[], none⟩
        ⟨"u9", "comment", "New comment", "ref1", "Article", none⟩).2.1
      = .skippedNotInitialized :=
  (notification_dispatch_best_effort ⟨[], none⟩
      ⟨"u9", "comment", "New comment", "ref1", "Article", none⟩).2.2.1 rfl

end MeanBlog
